import Mathlib

/-!
Shallow embedding of the `aws-utils` repository (two Python modules,
`create_cluster.py` and `delete_cluster.py`) and proofs of the spec's
claims about it.

Modelling conventions:
* Provider (boto3/AWS) calls are synchronous requests.  Each call appends an
  `Event` describing the request to a trace; the provider's response for each
  call is supplied up-front by a `Provider` record of outcomes, so theorems
  quantify over every possible provider behaviour.
* `print` output is collected in a list of strings.
* A Python function body that can raise is embedded as an `Eff` value:
  the trace of issued requests, the printed lines, and an
  `Except PyError` result (`.error` = an uncaught exception propagates).
* Python's dynamic typing at the one place the code inspects types
  (`create_aws_clients`) is embedded by the `PyVal` sum; Python call-arity
  checking at the one call site that gets it wrong (`delete_cluster.main`)
  is embedded by `call_create_aws_clients` over an explicit argument list.
* Configuration values read from `dwh.cfg` by `configparser` are strings;
  a valid configuration (all keys present) is a `Config` record.
-/

/-- Python exceptions relevant to this code: `TypeError` (wrong call arity),
`ValueError` (failed `int()` conversion), and `botocore` client errors carrying
an error code (e.g. `EntityAlreadyExists`) and a message. -/
inductive PyError where
  | typeError (msg : String)
  | valueError (msg : String)
  | clientError (code : String) (msg : String)
deriving DecidableEq, Repr

/-- `str(e)`: what `print(e)` writes for an exception `e`. -/
def PyError.str : PyError → String
  | .typeError m => m
  | .valueError m => m
  | .clientError _ m => m

/-- The Python values that flow into `create_aws_clients` at its two call
sites: a string, or a list of strings.  The function inspects
`type(clients) == str` at runtime, so the embedding keeps the sum. -/
inductive PyVal where
  | str (s : String)
  | strList (l : List String)
deriving DecidableEq, Repr

/-- A boto3 client handle: `boto3.client(client, region_name = region,
aws_access_key_id = key, aws_secret_access_key = secret)`. -/
structure Client where
  service : String
  region : String
  key : String
  secret : String
deriving DecidableEq, Repr

/-- `create_cluster.create_aws_clients` (lines 15-47): if `clients` is a
string it is wrapped into a one-element list, then one boto3 client is built
per name, in the given order. -/
def create_aws_clients (clients : PyVal) (region key secret : String) :
    List Client :=
  let cs : List String :=
    match clients with
    | .str s => [s]
    | .strList l => l
  cs.map fun c => { service := c, region := region, key := key, secret := secret }

/-- Python call semantics for `create_aws_clients`, which has four required
positional parameters `(clients, region, key, secret)`.  A call with a
different number of positional arguments raises `TypeError` before the body
runs; `delete_cluster.main` passes three. -/
def call_create_aws_clients (args : List PyVal) :
    Except PyError (List Client) :=
  match args with
  | [clients, PyVal.str region, PyVal.str key, PyVal.str secret] =>
      .ok (create_aws_clients clients region key secret)
  | [_, _, _, _] =>
      .error (.typeError "argument of unsupported type")
  | _ =>
      .error (.typeError
        "create_aws_clients() missing 1 required positional argument: 'secret'")

instance {ε α : Type} [DecidableEq ε] [DecidableEq α] :
    DecidableEq (Except ε α) := fun x y =>
  match x, y with
  | .error a, .error b =>
    if h : a = b then .isTrue (by rw [h]) else .isFalse (by simp [h])
  | .error _, .ok _ => .isFalse (by simp)
  | .ok _, .error _ => .isFalse (by simp)
  | .ok a, .ok b =>
    if h : a = b then .isTrue (by rw [h]) else .isFalse (by simp [h])

/-- The whitespace characters `int()` strips (the ASCII ones; non-ASCII
unicode whitespace does not occur in this repository's inputs). -/
def isPyWhitespace (c : Char) : Bool :=
  c = ' ' || c = '\t' || c = '\n' || c = '\x0b' || c = '\x0c' || c = '\r'

/-- Strip leading and trailing whitespace from a character list. -/
def stripChars (cs : List Char) : List Char :=
  ((cs.dropWhile isPyWhitespace).reverse.dropWhile isPyWhitespace).reverse

/-- Decimal value of a nonempty all-digit character list, else `none`. -/
def decDigits? (cs : List Char) : Option Nat :=
  match cs with
  | [] => none
  | _ =>
    if cs.all Char.isDigit then
      some (cs.foldl (fun n c => n * 10 + (c.toNat - 48)) 0)
    else none

/-- Python's `int(s)` on a string: surrounding whitespace is stripped, an
optional single `+`/`-` sign precedes one or more decimal digits; anything
else raises `ValueError`.  (Digit-group underscores and non-ASCII digits,
which CPython also accepts, are outside the inputs this repository meets and
are not modelled.) -/
def pyInt (s : String) : Except PyError Int :=
  let invalid : Except PyError Int :=
    .error (.valueError ("invalid literal for int() with base 10: " ++ s))
  match stripChars s.data with
  | '+' :: rest =>
    match decDigits? rest with
    | some n => .ok (n : Int)
    | none => invalid
  | '-' :: rest =>
    match decDigits? rest with
    | some n => .ok (-(n : Int))
    | none => invalid
  | cs =>
    match decDigits? cs with
    | some n => .ok (n : Int)
    | none => invalid

/-- The `CreateCluster` request body built at `create_cluster.py` lines
104-118.  `NumberOfNodes` is an integer because the code applies `int(...)`
before the request is assembled. -/
structure CreateClusterRequest where
  clusterType : String
  nodeType : String
  numberOfNodes : Int
  dbName : String
  clusterIdentifier : String
  masterUsername : String
  masterUserPassword : String
  iamRoles : List String
deriving DecidableEq, Repr

/-- One request issued to the provider API.  `deleteCluster` carries the
`SkipFinalClusterSnapshot` parameter as an `Option Bool`: `none` models a
call that omits the parameter (boto3's snapshot-preserving default). -/
inductive Event where
  | createRole (roleName path description assumeRolePolicyDoc : String)
  | attachRolePolicy (roleName policyArn : String)
  | getRole (roleName : String)
  | createCluster (req : CreateClusterRequest)
  | describeClusters (clusterIdentifier : String)
  | deleteCluster (clusterIdentifier : String) (skipFinalSnapshot : Option Bool)
  | detachRolePolicy (roleName policyArn : String)
  | deleteRole (roleName : String)
deriving DecidableEq, Repr

/-- The result of running a piece of the scripts: the trace of provider
requests issued, the lines printed, and either a value or the uncaught
exception that propagates. -/
structure Eff (α : Type) where
  events : List Event
  prints : List String
  result : Except PyError α
deriving Repr

/-- Provider behaviour: the response the provider gives to each kind of call
these scripts make.  `attachRes` is the HTTP status code the code reads off
(and discards); `getRoleArn` is the `['Role']['Arn']` field; `describeRes`
is the (printed) cluster-properties record, kept abstract as a string. -/
structure Provider where
  createRoleRes : Except PyError Unit
  attachRes : Except PyError Nat
  getRoleArn : Except PyError String
  createClusterRes : Except PyError Unit
  describeRes : Except PyError String
  deleteClusterRes : Except PyError Unit
  detachRes : Except PyError Unit
  deleteRoleRes : Except PyError Unit

/-- Fixed strings of `create_cluster.py`. -/
def roleDescription : String :=
  "Allows Redshift clusters to call AWS services on your behalf."

/-- `json.dumps` of the trust-policy dict at lines 69-78. -/
def assumeRolePolicyDocument : String :=
  "\x7b\"Statement\": [\x7b\"Action\": \"sts:AssumeRole\", \"Effect\": \"Allow\", \"Principal\": \x7b\"Service\": \"redshift.amazonaws.com\"\x7d\x7d], \"Version\": \"2012-10-17\"\x7d"

/-- The hardcoded managed-policy identifier used at lines 87 and 33. -/
def s3ReadOnlyPolicyArn : String :=
  "arn:aws:iam::aws:policy/AmazonS3ReadOnlyAccess"

/-- Configuration read from `dwh.cfg` at process start: exactly the keys the
two scripts look up.  All values are strings (`configparser` semantics).
Note there is no region key: neither script reads a region from the file. -/
structure Config where
  awsKey : String
  awsSecret : String
  iamRoleName : String
  clusterType : String
  nodeType : String
  numNodes : String
  db : String
  clusterIdentifier : String
  dbUser : String
  dbPassword : String
deriving DecidableEq, Repr

/-- `create_cluster.create_iam_role` (lines 49-94).  The `create_role` call
sits alone inside `try/except Exception: print(e)`; the subsequent
`attach_role_policy` and `get_role` calls are not guarded, so their failures
propagate.  The request event of a failing call is still issued (the error is
the provider's response to it). -/
def create_iam_role (p : Provider) (iam_role_name : String) : Eff String :=
  let evs0 := [Event.createRole iam_role_name "/" roleDescription
      assumeRolePolicyDocument]
  let prs0 := "1.1 Creating a new IAM Role" ::
    (match p.createRoleRes with
     | .ok _ => []
     | .error e => [e.str])
  let evs1 := evs0 ++ [Event.attachRolePolicy iam_role_name s3ReadOnlyPolicyArn]
  let prs1 := prs0 ++ ["1.2 Attaching Policy"]
  match p.attachRes with
  | .error e => ⟨evs1, prs1, .error e⟩
  | .ok _ =>
    let evs2 := evs1 ++ [Event.getRole iam_role_name]
    let prs2 := prs1 ++ ["1.3 Get the IAM role ARN"]
    match p.getRoleArn with
    | .error e => ⟨evs2, prs2, .error e⟩
    | .ok role_arn =>
      ⟨evs2, prs2 ++ ["Successful IAM role creation"], .ok role_arn⟩

/-- `create_cluster.create_redshift_cluster` (lines 96-123).  The whole body,
including the `int(num_nodes)` conversion, sits inside
`try/except Exception: print(e)`, so the function never lets an exception
propagate.  If `int()` raises, no request is issued at all. -/
def create_redshift_cluster (p : Provider)
    (cluster_type node_type num_nodes db cluster_id db_user db_password
      role_arn : String) : Eff Unit :=
  match pyInt num_nodes with
  | .error e => ⟨[], [e.str], .ok ()⟩
  | .ok n =>
    let req : CreateClusterRequest :=
      { clusterType := cluster_type
        nodeType := node_type
        numberOfNodes := n
        dbName := db
        clusterIdentifier := cluster_id
        masterUsername := db_user
        masterUserPassword := db_password
        iamRoles := [role_arn] }
    match p.createClusterRes with
    | .ok _ => ⟨[Event.createCluster req],
        ["Successful Redshift Cluster Creation"], .ok ()⟩
    | .error e => ⟨[Event.createCluster req], [e.str], .ok ()⟩

/-- `create_cluster.display_cluster_props` (lines 126-137): an unguarded
`describe_clusters` call, then a print of the first cluster record. -/
def display_cluster_props (p : Provider) (cluster_id : String) : Eff Unit :=
  match p.describeRes with
  | .error e => ⟨[Event.describeClusters cluster_id], [], .error e⟩
  | .ok props => ⟨[Event.describeClusters cluster_id], [props], .ok ()⟩

/-- Sequencing of two statements: if the first raises, the second never
runs and the traces stop there. -/
def Eff.seq {α β : Type} (a : Eff α) (f : α → Eff β) : Eff β :=
  match a.result with
  | .error e => ⟨a.events, a.prints, .error e⟩
  | .ok x =>
    let b := f x
    ⟨a.events ++ b.events, a.prints ++ b.prints, b.result⟩

/-- The client-construction call in `create_cluster.main` (lines 147-152):
four positional arguments, the region being the literal string
`'us-west-2'`. -/
def createMainClients (cfg : Config) : Except PyError (List Client) :=
  call_create_aws_clients
    [PyVal.strList ["iam", "redshift"], PyVal.str "us-west-2",
     PyVal.str cfg.awsKey, PyVal.str cfg.awsSecret]

/-- `create_cluster.main` (lines 140-167). -/
def createMain (p : Provider) (cfg : Config) : Eff Unit :=
  match createMainClients cfg with
  | .error e => ⟨[], [], .error e⟩
  | .ok clientObjs =>
    match clientObjs with
    | [_, _] =>
      (create_iam_role p cfg.iamRoleName).seq fun role_arn =>
        (create_redshift_cluster p cfg.clusterType cfg.nodeType cfg.numNodes
            cfg.db cfg.clusterIdentifier cfg.dbUser cfg.dbPassword
            role_arn).seq fun _ =>
          display_cluster_props p cfg.clusterIdentifier
    | _ => ⟨[], [], .error (.valueError "not enough values to unpack")⟩

/-- The client-construction call in `delete_cluster.main` (lines 18-22):
only three positional arguments (`'us-west-2'`, key, secret). -/
def deleteMainClients (cfg : Config) : Except PyError (List Client) :=
  call_create_aws_clients
    [PyVal.str "us-west-2", PyVal.str cfg.awsKey, PyVal.str cfg.awsSecret]

/-- The statements of `delete_cluster.main` after client construction
(lines 24-37): delete the cluster skipping the final snapshot, detach the
policy, delete the role, print a confirmation.  None of the three calls is
guarded, so the first failure aborts the remainder. -/
def decommissionBody (p : Provider) (cfg : Config) : Eff Unit :=
  let ev1 := Event.deleteCluster cfg.clusterIdentifier (some true)
  match p.deleteClusterRes with
  | .error e => ⟨[ev1], [], .error e⟩
  | .ok _ =>
    let ev2 := Event.detachRolePolicy cfg.iamRoleName s3ReadOnlyPolicyArn
    match p.detachRes with
    | .error e => ⟨[ev1, ev2], [], .error e⟩
    | .ok _ =>
      let ev3 := Event.deleteRole cfg.iamRoleName
      match p.deleteRoleRes with
      | .error e => ⟨[ev1, ev2, ev3], [], .error e⟩
      | .ok _ => ⟨[ev1, ev2, ev3], ["Cluster and IAM role deleted"], .ok ()⟩

/-- `delete_cluster.main` (lines 14-37). -/
def deleteMain (p : Provider) (cfg : Config) : Eff Unit :=
  match deleteMainClients cfg with
  | .error e => ⟨[], [], .error e⟩
  | .ok clientObjs =>
    match clientObjs with
    | [_, _] => decommissionBody p cfg
    | _ => ⟨[], [], .error (.valueError "not enough values to unpack")⟩

/-! ## Fixtures: concrete configurations and provider behaviours -/

/-- A provider that answers every call successfully. -/
def providerOk : Provider :=
  { createRoleRes := .ok (), attachRes := .ok 200,
    getRoleArn := .ok "arn:aws:iam::123456789012:role/dwhRole",
    createClusterRes := .ok (), describeRes := .ok "cluster-properties",
    deleteClusterRes := .ok (), detachRes := .ok (), deleteRoleRes := .ok () }

/-- A sample valid configuration (every key of `dwh.cfg` present). -/
def cfgSample : Config :=
  { awsKey := "AKIAEXAMPLE", awsSecret := "secretExample",
    iamRoleName := "dwhRole", clusterType := "multi-node",
    nodeType := "dc2.large", numNodes := "4", db := "dwh",
    clusterIdentifier := "dwhCluster", dbUser := "dwhuser",
    dbPassword := "Passw0rd" }

/-- The cluster-creation request `createMain` issues under `providerOk` and
`cfgSample`. -/
def reqSample : CreateClusterRequest :=
  { clusterType := "multi-node", nodeType := "dc2.large", numberOfNodes := 4,
    dbName := "dwh", clusterIdentifier := "dwhCluster",
    masterUsername := "dwhuser", masterUserPassword := "Passw0rd",
    iamRoles := ["arn:aws:iam::123456789012:role/dwhRole"] }

/-- `p` with the `create_role` response replaced by success. -/
def withCreateRoleOk (p : Provider) : Provider :=
  { p with createRoleRes := .ok () }

/-- The message of the provider's role-already-exists error. -/
def alreadyExistsMsg : String :=
  "Role with name dwhRole already exists."

/-- The provider's role-already-exists error. -/
def alreadyExistsErr : PyError :=
  PyError.clientError "EntityAlreadyExists" alreadyExistsMsg

/-- A provider whose `create_role` call fails with `EntityAlreadyExists` and
that answers every other call successfully. -/
def providerRoleExists : Provider :=
  { providerOk with createRoleRes := Except.error alreadyExistsErr }

/-- A policy-attachment denial error. -/
def attachDeniedErr : PyError :=
  PyError.clientError "AccessDenied" "not authorized to perform iam:AttachRolePolicy"

/-- A provider whose `attach_role_policy` call fails and that answers every
other call successfully. -/
def providerAttachFails : Provider :=
  { providerOk with attachRes := Except.error attachDeniedErr }

/-- Two valid configurations that differ in every field, used to show the
client region is not a function of the configuration. -/
def cfgA : Config :=
  { awsKey := "keyA", awsSecret := "secretA", iamRoleName := "roleA",
    clusterType := "multi-node", nodeType := "dc2.large", numNodes := "4",
    db := "dbA", clusterIdentifier := "clusterA", dbUser := "userA",
    dbPassword := "pwA" }

/-- Companion to `cfgA`. -/
def cfgB : Config :=
  { awsKey := "keyB", awsSecret := "secretB", iamRoleName := "roleB",
    clusterType := "single-node", nodeType := "ds2.xlarge", numNodes := "7",
    db := "dbB", clusterIdentifier := "clusterB", dbUser := "userB",
    dbPassword := "pwB" }

/-! ## Claims -/

/-- Claim C1 (code bug): the spec says the Decommissioner issues cluster
deletion and policy detachment strictly before role deletion, but
`delete_cluster.main` passes three arguments to the four-parameter
`create_aws_clients` and so raises `TypeError` first: for every provider
behaviour and every valid configuration it issues no provider request at
all — in particular it never issues the claimed deletion sequence. -/
theorem decommissioner_issues_no_requests (p : Provider) (cfg : Config) :
    (deleteMain p cfg).events = [] := rfl

/-- Claim C2: for every provider behaviour and configuration,
`delete_cluster.main` raises the missing-positional-argument `TypeError`
from its three-argument call to `create_aws_clients` before issuing any
provider request (and before printing anything). -/
theorem decommissioner_arity_type_error (p : Provider) (cfg : Config) :
    deleteMain p cfg =
      ⟨[], [], .error (.typeError
        "create_aws_clients() missing 1 required positional argument: 'secret'")⟩ :=
  rfl

/-- Claim C3: whenever `create_cluster.main` issues a cluster-creation
request, the trace shows the role-creation request strictly before it, and
the policy-attachment request strictly before the `get_role` ARN read-back
whose result is exactly the role ARN carried by the cluster-creation
request. -/
theorem provisioner_orders_role_before_cluster (p : Provider) (cfg : Config)
    (req : CreateClusterRequest)
    (h : Event.createCluster req ∈ (createMain p cfg).events) :
    ∃ arn, p.getRoleArn = .ok arn ∧ req.iamRoles = [arn] ∧
      (createMain p cfg).events =
        [Event.createRole cfg.iamRoleName "/" roleDescription
           assumeRolePolicyDocument,
         Event.attachRolePolicy cfg.iamRoleName s3ReadOnlyPolicyArn,
         Event.getRole cfg.iamRoleName,
         Event.createCluster req,
         Event.describeClusters cfg.clusterIdentifier] := by
  obtain ⟨cr, atr, gr, cc, dr, dc, dt, dlr⟩ := p
  rcases atr with eA | nA <;> rcases gr with eG | arn <;>
    rcases hN : pyInt cfg.numNodes with eN | n <;>
    rcases cc with eC | uC <;> rcases dr with eD | props <;>
    simp_all [createMain, createMainClients, call_create_aws_clients,
      create_aws_clients, Eff.seq, create_iam_role, create_redshift_cluster,
      display_cluster_props]

/-- Witness for C3 at the all-success provider and sample configuration. -/
theorem provisioner_orders_role_before_cluster_witness :
    Event.createCluster reqSample ∈ (createMain providerOk cfgSample).events ∧
    ∃ arn, providerOk.getRoleArn = .ok arn ∧ reqSample.iamRoles = [arn] ∧
      (createMain providerOk cfgSample).events =
        [Event.createRole cfgSample.iamRoleName "/" roleDescription
           assumeRolePolicyDocument,
         Event.attachRolePolicy cfgSample.iamRoleName s3ReadOnlyPolicyArn,
         Event.getRole cfgSample.iamRoleName,
         Event.createCluster reqSample,
         Event.describeClusters cfgSample.clusterIdentifier] :=
  ⟨by decide,
   provisioner_orders_role_before_cluster providerOk cfgSample reqSample
     (by decide)⟩

/-- Claim C4: given `["iam", "redshift"]`, the client factory returns
exactly two handles, the first bound to `iam` and the second to `redshift`,
both bound to the given region and credentials; in general it returns one
handle per requested name, preserving input order. -/
theorem client_factory_order_preserving (region key secret : String)
    (l : List String) :
    create_aws_clients (PyVal.strList ["iam", "redshift"]) region key secret =
      [{ service := "iam", region := region, key := key, secret := secret },
       { service := "redshift", region := region, key := key, secret := secret }] ∧
    create_aws_clients (PyVal.strList l) region key secret =
      l.map fun s =>
        { service := s, region := region, key := key, secret := secret } :=
  ⟨rfl, rfl⟩

/-- Claim C5: the client factory applied to a scalar service name returns
exactly the same result as applied to the one-element list of that name. -/
theorem client_factory_scalar_eq_singleton (s region key secret : String) :
    create_aws_clients (PyVal.str s) region key secret =
      create_aws_clients (PyVal.strList [s]) region key secret := rfl

/-- Claim C6: whenever the node-count configuration string represents an
integer, any cluster-creation request issued carries that integer (and the
fully `int`-converted request), never the raw string. -/
theorem cluster_request_node_count_is_int (p : Provider)
    (ct nt nn db cid du dp arn : String) (n : Int)
    (hn : pyInt nn = .ok n) (req : CreateClusterRequest)
    (hm : Event.createCluster req ∈
      (create_redshift_cluster p ct nt nn db cid du dp arn).events) :
    req.numberOfNodes = n ∧
    req = { clusterType := ct, nodeType := nt, numberOfNodes := n,
            dbName := db, clusterIdentifier := cid, masterUsername := du,
            masterUserPassword := dp, iamRoles := [arn] } := by
  obtain ⟨cr, atr, gr, cc, dr, dc, dt, dlr⟩ := p
  rcases cc with eC | uC <;> simp_all [create_redshift_cluster]

/-- Witness for C6 at the string `"4"`. -/
theorem cluster_request_node_count_is_int_witness :
    pyInt "4" = .ok 4 ∧
    Event.createCluster reqSample ∈
      (create_redshift_cluster providerOk "multi-node" "dc2.large" "4" "dwh"
        "dwhCluster" "dwhuser" "Passw0rd"
        "arn:aws:iam::123456789012:role/dwhRole").events ∧
    (reqSample.numberOfNodes = 4 ∧
     reqSample = { clusterType := "multi-node", nodeType := "dc2.large",
                   numberOfNodes := 4, dbName := "dwh",
                   clusterIdentifier := "dwhCluster",
                   masterUsername := "dwhuser",
                   masterUserPassword := "Passw0rd",
                   iamRoles := ["arn:aws:iam::123456789012:role/dwhRole"] }) :=
  ⟨by decide, by decide,
   cluster_request_node_count_is_int providerOk "multi-node" "dc2.large" "4"
     "dwh" "dwhCluster" "dwhuser" "Passw0rd"
     "arn:aws:iam::123456789012:role/dwhRole" 4 (by decide) reqSample
     (by decide)⟩

/-- Claim C7: the deletion code's cluster-deletion request always carries
`SkipFinalClusterSnapshot = True` explicitly (the flag is `some true`, never
the omitted-parameter `none`): it is the first request of the deletion
sequence, and every cluster-deletion request in that sequence carries the
flag set. -/
theorem decommission_request_skips_final_snapshot (p : Provider)
    (cfg : Config) :
    (decommissionBody p cfg).events.head? =
      some (Event.deleteCluster cfg.clusterIdentifier (some true)) ∧
    ∀ cid flag,
      Event.deleteCluster cid flag ∈ (decommissionBody p cfg).events →
        flag = some true := by
  obtain ⟨cr, atr, gr, cc, dr, dc, dt, dlr⟩ := p
  rcases dc with e1 | u1 <;> rcases dt with e2 | u2 <;>
    rcases dlr with e3 | u3 <;> simp_all [decommissionBody]

/-- Witness for C7 at the all-success provider and sample configuration. -/
theorem decommission_request_skips_final_snapshot_witness :
    Event.deleteCluster "dwhCluster" (some true) ∈
      (decommissionBody providerOk cfgSample).events ∧
    (decommissionBody providerOk cfgSample).events.head? =
      some (Event.deleteCluster cfgSample.clusterIdentifier (some true)) :=
  ⟨by decide,
   (decommission_request_skips_final_snapshot providerOk cfgSample).1⟩

/-- Claim C8: if `create_role` fails with an already-exists error, the error
message is printed, the trace and result are exactly those of a successful
role creation (the error is not propagated), and the policy-attachment
request is still issued. -/
theorem role_already_exists_swallowed (p : Provider) (roleName msg : String)
    (h : p.createRoleRes =
      .error (PyError.clientError "EntityAlreadyExists" msg)) :
    (PyError.clientError "EntityAlreadyExists" msg).str ∈
      (create_iam_role p roleName).prints ∧
    Event.attachRolePolicy roleName s3ReadOnlyPolicyArn ∈
      (create_iam_role p roleName).events ∧
    (create_iam_role p roleName).events =
      (create_iam_role (withCreateRoleOk p) roleName).events ∧
    (create_iam_role p roleName).result =
      (create_iam_role (withCreateRoleOk p) roleName).result := by
  obtain ⟨cr, atr, gr, cc, dr, dc, dt, dlr⟩ := p
  rcases atr with eA | nA <;> rcases gr with eG | arn <;>
    simp_all [create_iam_role, withCreateRoleOk, PyError.str]

/-- Witness for C8 at a provider whose `create_role` reports
`EntityAlreadyExists`. -/
theorem role_already_exists_swallowed_witness :
    (PyError.clientError "EntityAlreadyExists" alreadyExistsMsg).str ∈
      (create_iam_role providerRoleExists "dwhRole").prints ∧
    Event.attachRolePolicy "dwhRole" s3ReadOnlyPolicyArn ∈
      (create_iam_role providerRoleExists "dwhRole").events ∧
    (create_iam_role providerRoleExists "dwhRole").events =
      (create_iam_role (withCreateRoleOk providerRoleExists) "dwhRole").events ∧
    (create_iam_role providerRoleExists "dwhRole").result =
      (create_iam_role (withCreateRoleOk providerRoleExists) "dwhRole").result :=
  role_already_exists_swallowed providerRoleExists "dwhRole" alreadyExistsMsg
    rfl

/-- Counterexample to claim C9: a policy-attachment failure is neither
logged nor survived.  Under a provider whose `attach_role_policy` call
fails, `create_cluster.main` propagates the error as its result, prints
only the two step banners (not the error), and issues no further request
after the attachment — execution does not continue. -/
theorem attach_failure_propagates :
    (createMain providerAttachFails cfgSample).result =
      .error (.clientError "AccessDenied"
        "not authorized to perform iam:AttachRolePolicy") ∧
    (createMain providerAttachFails cfgSample).prints =
      ["1.1 Creating a new IAM Role", "1.2 Attaching Policy"] ∧
    (createMain providerAttachFails cfgSample).events =
      [Event.createRole "dwhRole" "/" roleDescription
         assumeRolePolicyDocument,
       Event.attachRolePolicy "dwhRole" s3ReadOnlyPolicyArn] := by
  decide

/-- Claim C9 as amended: failures of the `create_role` call and of the
cluster-creation step (including the `int()` conversion) are printed and
execution continues — the role-creation result is exactly what it would be
on success, and cluster creation never propagates; but failures during
policy attachment or ARN read-back are not caught: the result of the
role-creation steps is the attachment error if attachment fails, and
otherwise exactly the outcome of the ARN read-back. -/
theorem creation_failures_logged_and_continue (p : Provider)
    (roleName ct nt nn db cid du dp arn : String) (e : PyError)
    (hc : p.createRoleRes = .error e) :
    PyError.str e ∈ (create_iam_role p roleName).prints ∧
    (create_iam_role p roleName).result =
      (match p.attachRes with
       | .error ea => .error ea
       | .ok _ => p.getRoleArn) ∧
    (create_redshift_cluster p ct nt nn db cid du dp arn).result =
      Except.ok () ∧
    (create_redshift_cluster p ct nt nn db cid du dp arn).prints =
      (match pyInt nn with
       | .error en => [en.str]
       | .ok _ =>
         match p.createClusterRes with
         | .ok _ => ["Successful Redshift Cluster Creation"]
         | .error e2 => [e2.str]) := by
  obtain ⟨cr, atr, gr, cc, dr, dc, dt, dlr⟩ := p
  rcases atr with eA | nA <;> rcases gr with eG | arn2 <;>
    rcases hN : pyInt nn with eN | n <;> rcases cc with eC | uC <;>
    simp_all [create_iam_role, create_redshift_cluster]

/-- Witness for the amended C9 at a provider whose `create_role` fails with
`EntityAlreadyExists` and whose other calls succeed. -/
theorem creation_failures_logged_and_continue_witness :
    PyError.str (PyError.clientError "EntityAlreadyExists" alreadyExistsMsg) ∈
      (create_iam_role providerRoleExists "dwhRole").prints ∧
    (create_iam_role providerRoleExists "dwhRole").result =
      Except.ok "arn:aws:iam::123456789012:role/dwhRole" ∧
    (create_redshift_cluster providerRoleExists "multi-node" "dc2.large" "4"
      "dwh" "dwhCluster" "dwhuser" "Passw0rd"
      "arn:aws:iam::123456789012:role/dwhRole").result = Except.ok () ∧
    (create_redshift_cluster providerRoleExists "multi-node" "dc2.large" "4"
      "dwh" "dwhCluster" "dwhuser" "Passw0rd"
      "arn:aws:iam::123456789012:role/dwhRole").prints =
      ["Successful Redshift Cluster Creation"] :=
  creation_failures_logged_and_continue providerRoleExists "dwhRole"
    "multi-node" "dc2.large" "4" "dwh" "dwhCluster" "dwhuser" "Passw0rd"
    "arn:aws:iam::123456789012:role/dwhRole"
    (PyError.clientError "EntityAlreadyExists" alreadyExistsMsg) rfl

/-- Counterexample to claim C10: the region bound into the provider clients
is not read from the configuration.  Two valid configurations differing in
every field both yield clients bound to the literal region `us-west-2`
(indeed the `dwh.cfg` keys the code reads include no region at all). -/
theorem region_constant_counterexample :
    createMainClients cfgA = .ok
      [{ service := "iam", region := "us-west-2", key := "keyA",
         secret := "secretA" },
       { service := "redshift", region := "us-west-2", key := "keyA",
         secret := "secretA" }] ∧
    createMainClients cfgB = .ok
      [{ service := "iam", region := "us-west-2", key := "keyB",
         secret := "secretB" },
       { service := "redshift", region := "us-west-2", key := "keyB",
         secret := "secretB" }] :=
  ⟨rfl, rfl⟩

/-- Claim C10 as amended: the access key and secret bound into the provider
clients are read from the configuration at process start, but the region is
the constant `us-west-2` hardcoded at the call site, for every
configuration. -/
theorem region_is_hardcoded (cfg : Config) :
    createMainClients cfg = .ok
      [{ service := "iam", region := "us-west-2", key := cfg.awsKey,
         secret := cfg.awsSecret },
       { service := "redshift", region := "us-west-2", key := cfg.awsKey,
         secret := cfg.awsSecret }] := rfl
